import Mathlib

/-!
# Verification of `anonyme.py`

A shallow embedding of the IP-address anonymizer `src/anonyme.py` and
proofs about it.  The program scans text for IPv4/IPv6-shaped substrings
with the regex
`\[?(?P<ip>(?:\d{1,3}\.){3}\d{1,3}|(?:[0-9a-fA-F]{1,4}:){7}[0-9a-fA-F]{1,4})\]?`
and, per match, either leaves it unchanged (exclusion list), replaces it
by a `[CC]` country-code placeholder (CountryCode mode, on lookup
success), or masks it.  Lookup exceptions return the original match.

The scanner is embedded as a deterministic matcher over `List Char`.
Determinism is justified by the pattern's shape: inside
`(?:\d{1,3}\.){3}` each repetition must consume a complete maximal digit
run (a shorter take leaves a digit, not `.`, as next char; a longer take
is impossible), so the backtracking regex engine has exactly one way to
satisfy each repetition, and likewise for the hex/colon repetitions.
The trailing `\d{1,3}` / `[0-9a-fA-F]{1,4}` is greedy with nothing
after it that can fail (`\]?` always succeeds), so it takes
`min run 3` / `min run 4` characters.  The leading `\[?` consumes a `[`
when present; retrying without the `[` cannot help, because the address
alternatives never start with `[`.  `re.sub` scans left to right,
copying unmatched characters and restarting after each match.
-/

namespace Anonyme

/-- The exclusion list, verbatim from `excluded_ips` in the source. -/
def excluded_ips : List String :=
  [ "127.0.0.1", "127.0.0.2", "148.251.207.64", "148.251.207.65", "148.251.207.66",
    "148.251.207.67", "148.251.207.68", "148.251.207.69", "148.251.207.70",
    "148.251.207.71", "148.251.207.72", "148.251.207.73", "148.251.207.74",
    "148.251.207.75", "148.251.207.76", "148.251.207.77", "148.251.207.78",
    "148.251.207.79", "2a01:4f8:173:2203:0:0:0:2", "2a01:4f8:173:2203:0:0:0:64",
    "2a01:4f8:173:2203:0:0:0:65", "2a01:4f8:173:2203:0:0:0:66", "2a01:4f8:173:2203:0:0:0:67",
    "2a01:4f8:173:2203:0:0:0:68", "2a01:4f8:173:2203:0:0:0:69", "2a01:4f8:173:2203:0:0:0:70",
    "2a01:4f8:173:2203:0:0:0:71", "2a01:4f8:173:2203:0:0:0:72", "2a01:4f8:173:2203:0:0:0:73",
    "2a01:4f8:173:2203:0:0:0:74", "2a01:4f8:173:2203:0:0:0:75", "2a01:4f8:173:2203:0:0:0:76",
    "2a01:4f8:173:2203:0:0:0:77", "2a01:4f8:173:2203:0:0:0:78", "2a01:4f8:173:2203:0:0:0:79" ]

/-- Python's `s.split(sep)` for a single-character separator. -/
def splitOnChar (sep : Char) : List Char → List (List Char)
  | [] => [[]]
  | c :: rest =>
    if c = sep then [] :: splitOnChar sep rest
    else
      match splitOnChar sep rest with
      | [] => [[c]]
      | g :: gs => (c :: g) :: gs

/-- Python's `sep.join(groups)` for a single-character separator. -/
def joinWith (sep : Char) : List (List Char) → List Char
  | [] => []
  | [g] => g
  | g :: gs => g ++ sep :: joinWith sep gs

/-- `anonymize_ipv4`: `'.'.join(ip.split('.')[:2] + ['XXX', 'XXX'])`. -/
def anonymize_ipv4 (ip_address : List Char) : List Char :=
  joinWith '.' ((splitOnChar '.' ip_address).take 2 ++ [['X','X','X'], ['X','X','X']])

/-- `anonymize_ipv6`: `':'.join(ip.split(':')[:2] + ['XXXX'] * (8 - len(groups)))`.
Note `8 - len groups` is truncated subtraction, exactly like Python's
`['XXXX'] * n` which yields `[]` for `n <= 0`. -/
def anonymize_ipv6 (ip_address : List Char) : List Char :=
  let groups := splitOnChar ':' ip_address
  joinWith ':' (groups.take 2 ++ List.replicate (8 - groups.length) ['X','X','X','X'])

/-- Length of the leading run of characters satisfying `p`. -/
def runLen (p : Char → Bool) (cs : List Char) : Nat :=
  (cs.takeWhile p).length

/-- `[0-9a-fA-F]` of the IPv6 alternative. -/
def isHexChar (c : Char) : Bool :=
  c.isDigit || ('a' ≤ c && c ≤ 'f') || ('A' ≤ c && c ≤ 'F')

/-- One repetition of `(?:\d{1,3}\.)` (resp. `(?:[0-9a-fA-F]{1,4}:)`):
a maximal run of `p`-characters of length 1..`maxRun` followed by `sep`.
Returns the number of characters consumed (run + separator).  As argued
in the header, the regex engine has exactly this one way to satisfy the
repetition. -/
def groupSep (p : Char → Bool) (maxRun : Nat) (sep : Char) (cs : List Char) : Option Nat :=
  let r := runLen p cs
  if 1 ≤ r ∧ r ≤ maxRun then
    match cs.drop r with
    | c :: _ => if c = sep then some (r + 1) else none
    | [] => none
  else none

/-- `n` repetitions of a group matcher, summing consumed lengths. -/
def iterGroups (g : List Char → Option Nat) : Nat → List Char → Option Nat
  | 0, _ => some 0
  | n + 1, cs =>
    match g cs with
    | none => none
    | some l =>
      match iterGroups g n (cs.drop l) with
      | none => none
      | some l2 => some (l + l2)

/-- The IPv4 alternative `(?:\d{1,3}\.){3}\d{1,3}` at the head of `cs`:
number of characters matched, or `none`. -/
def matchIPv4At (cs : List Char) : Option Nat :=
  match iterGroups (groupSep Char.isDigit 3 '.') 3 cs with
  | none => none
  | some l =>
    let r := runLen Char.isDigit (cs.drop l)
    if 1 ≤ r then some (l + min r 3) else none

/-- The IPv6 alternative `(?:[0-9a-fA-F]{1,4}:){7}[0-9a-fA-F]{1,4}` at the
head of `cs`. -/
def matchIPv6At (cs : List Char) : Option Nat :=
  match iterGroups (groupSep isHexChar 4 ':') 7 cs with
  | none => none
  | some l =>
    let r := runLen isHexChar (cs.drop l)
    if 1 ≤ r then some (l + min r 4) else none

/-- The `ip` group: IPv4 alternative first, then IPv6, as in the pattern. -/
def matchIpAt (cs : List Char) : Option Nat :=
  match matchIPv4At cs with
  | some l => some l
  | none => matchIPv6At cs

/-- One candidate produced by the scanner: either a single unmatched
character, or a match of the full pattern: optional `[`, the `ip` group,
optional `]`. -/
inductive Token where
  | lit (c : Char)
  | cand (lb : Bool) (ip : List Char) (rb : Bool)
deriving DecidableEq, Repr

/-- Whether a token is a single unmatched character. -/
def Token.isLit : Token → Bool
  | .lit _ => true
  | .cand _ _ _ => false

/-- The source text a token stands for; for a candidate this is
`match.group()` (brackets included). -/
def Token.src : Token → List Char
  | .lit c => [c]
  | .cand lb ip rb =>
    (if lb then ['['] else []) ++ ip ++ (if rb then [']'] else [])

/-- The pattern after the optional leading bracket: the `ip` group and
the optional trailing `]`.  `lb` records whether a `[` was consumed. -/
def matchTail (lb : Bool) (cs1 : List Char) : Option (Token × List Char) :=
  match matchIpAt cs1 with
  | none => none
  | some ipLen =>
    match cs1.drop ipLen with
    | ']' :: t => some (.cand lb (cs1.take ipLen) true, t)
    | rest => some (.cand lb (cs1.take ipLen) false, rest)

/-- The whole pattern `\[?(?P<ip>...)\]?` at the head of `cs`: the matched
token and the remaining text.  When the head is `[` the engine first
tries the address after the bracket; retrying with `\[?` matching empty
cannot succeed because neither alternative starts with `[`. -/
def matchAt (cs : List Char) : Option (Token × List Char) :=
  match cs with
  | '[' :: t => matchTail true t
  | _ => matchTail false cs

/-- The left-to-right, non-overlapping scan of `re.sub`, with explicit
fuel (one unit per emitted token; `fuel = cs.length` always suffices
because every token consumes at least one character). -/
def scanF : Nat → List Char → List Token
  | 0, cs => cs.map .lit
  | fuel + 1, cs =>
    match matchAt cs with
    | some (tok, rest) => tok :: scanF fuel rest
    | none =>
      match cs with
      | [] => []
      | c :: rest => .lit c :: scanF fuel rest

/-- The scan of a text. -/
def scan (cs : List Char) : List Token :=
  scanF cs.length cs

/-- `replace_ip`, the per-match replacement callback.  `cc` is the
`replace_with_country_code` flag; `lookup` models `reader.country`
composed with `.country.iso_code`, `none` standing for any lookup
exception (address not found, malformed, ...), in which case the
`except` branch returns the original match. -/
def replace_ip (cc : Bool) (lookup : String → Option String) : Token → List Char
  | .lit c => [c]
  | .cand lb ip rb =>
    if String.mk ip ∈ excluded_ips then Token.src (.cand lb ip rb)
    else if cc then
      match lookup (String.mk ip) with
      | some country_code => '[' :: (country_code.data ++ [']'])
      | none => Token.src (.cand lb ip rb)
    else if '.' ∈ ip then anonymize_ipv4 ip
    else anonymize_ipv6 ip

/-- `anonymize_ip_addresses`: `re.sub(ip_pattern, replace_ip, content)` -
every match replaced via `replace_ip`, unmatched text kept. -/
def anonymize_ip_addresses (content : String) (cc : Bool)
    (lookup : String → Option String) : String :=
  String.mk (((scan content.data).map (replace_ip cc lookup)).flatten)

/-- Outcome of reading the input file in `main`. -/
inductive ReadOutcome where
  | ok (content : String)
  | err
deriving DecidableEq

/-- State of the original input file after one run of `main`. -/
inductive FileState where
  | untouched
  | replaced
  | torn
deriving DecidableEq

/-- Outcome of the write-back stage of `main`: `NamedTemporaryFile`
write, then `shutil.move(temp_filename, input_file)`.  The temporary
file is created in the default temp directory, not necessarily on the
input file's filesystem, so `shutil.move` has two paths: `os.rename`
(atomic replace, same filesystem), or - when `os.rename` raises
`OSError` - a fallback of `copy2` (which opens the destination for
writing, truncating it, and copies) followed by `os.unlink` of the
source.
  * `ok`:           write and rename succeeded.
  * `okViaCopy`:    rename failed, the `copy2` + `unlink` fallback
                    completed; the input file is fully replaced.
  * `tempWriteErr`: an exception before `shutil.move` (temp creation or
                    write); the input file was never opened for writing.
  * `copyErr`:      rename failed and `copy2` raised mid-copy; the input
                    file has been truncated and partially rewritten.
  * `unlinkErr`:    `copy2` completed but deleting the temp file failed;
                    the input file is fully replaced, the exception is
                    still raised. -/
inductive ProcessOutcome where
  | ok
  | okViaCopy
  | tempWriteErr
  | copyErr
  | unlinkErr
deriving DecidableEq

/-- Observable result of one run of `main`. -/
structure MainResult where
  exitCode : Nat
  fileState : FileState
  loggedError : Bool
deriving DecidableEq

/-- The control flow of `main`, with the two external effects (reading
the input file; writing the temp file and moving it over the input)
given as explicit outcomes.  A read error hits `sys.exit(1)`; any
exception in the second `try` block is caught, logged, and `main`
returns normally, so the process exits 0 there - including when the
input file was left torn by a failed `copy2` fallback. -/
def run_main (r : ReadOutcome) (w : ProcessOutcome) : MainResult :=
  match r with
  | .err => { exitCode := 1, fileState := .untouched, loggedError := true }
  | .ok _ =>
    match w with
    | .ok => { exitCode := 0, fileState := .replaced, loggedError := false }
    | .okViaCopy => { exitCode := 0, fileState := .replaced, loggedError := false }
    | .tempWriteErr => { exitCode := 0, fileState := .untouched, loggedError := true }
    | .copyErr => { exitCode := 0, fileState := .torn, loggedError := true }
    | .unlinkErr => { exitCode := 0, fileState := .replaced, loggedError := true }

/-- `\w` of the regex (ASCII fragment): letters, digits, underscore. -/
def isWordChar (c : Char) : Bool :=
  c.isAlphanum || c = '_'

/-- The last character of a token's source text (tokens are never
empty, so the default is irrelevant). -/
def Token.lastChar (t : Token) : Char :=
  t.src.getLast? |>.getD ' '

/-- The first character of a token's source text. -/
def Token.firstChar (t : Token) : Char :=
  t.src.head? |>.getD ' '

/-- Word-boundary discipline of a scan: no candidate token is glued to a
word character - at every junction between adjacent tokens of which one
is a candidate, the two adjacent characters are not both word
characters.  This is what "every matched candidate span is delimited by
word boundaries" means for the span's interior ends. -/
def boundaryClean : List Token → Bool
  | [] => true
  | [_] => true
  | x :: y :: rest =>
    ((x.isLit && y.isLit) ||
      !(isWordChar x.lastChar && isWordChar y.firstChar)) &&
    boundaryClean (y :: rest)

/-! ## General lemmas -/

theorem splitOnChar_of_not_mem {sep : Char} {a : List Char} (h : sep ∉ a) :
    splitOnChar sep a = [a] := by
  induction a with
  | nil => rfl
  | cons c rest ih =>
    have hc : ¬ c = sep := fun e => h (e ▸ List.mem_cons_self c rest)
    have hr : sep ∉ rest := fun e => h (List.mem_cons_of_mem c e)
    simp only [splitOnChar, if_neg hc, ih hr]

theorem splitOnChar_append {sep : Char} {a : List Char} (rest : List Char)
    (h : sep ∉ a) :
    splitOnChar sep (a ++ sep :: rest) = a :: splitOnChar sep rest := by
  induction a with
  | nil => simp [splitOnChar]
  | cons c a' ih =>
    have hc : ¬ c = sep := fun e => h (e ▸ List.mem_cons_self c a')
    have hr : sep ∉ a' := fun e => h (List.mem_cons_of_mem c e)
    rw [List.cons_append, splitOnChar]
    rw [if_neg hc, ih hr]

theorem matchTail_src {lb : Bool} {cs1 : List Char} {tok : Token}
    {rest : List Char} (h : matchTail lb cs1 = some (tok, rest)) :
    Token.src tok ++ rest = (if lb then ['['] else []) ++ cs1 := by
  unfold matchTail at h
  split at h
  · exact absurd h (by simp)
  · rename_i ipLen _
    split at h
    · rename_i t hdrop
      injection h with h
      injection h with h1 h2
      subst h1; subst h2
      simp only [Token.src, List.append_assoc]
      congr 1
      show cs1.take ipLen ++ ([']'] ++ t) = cs1
      rw [List.singleton_append]
      conv_rhs => rw [← List.take_append_drop ipLen cs1, hdrop]
    · injection h with h
      injection h with h1 h2
      subst h1; subst h2
      simp only [Token.src, List.append_assoc]
      congr 1
      show cs1.take ipLen ++ ([] ++ cs1.drop ipLen) = cs1
      rw [List.nil_append]
      exact List.take_append_drop ipLen cs1

theorem matchAt_src {cs : List Char} {tok : Token} {rest : List Char}
    (h : matchAt cs = some (tok, rest)) : Token.src tok ++ rest = cs := by
  unfold matchAt at h
  split at h
  · rename_i t
    have := matchTail_src h
    simpa using this
  · simpa using matchTail_src h

theorem flatten_map_singleton (cs : List Char) :
    (cs.map fun c => [c]).flatten = cs := by
  induction cs with
  | nil => rfl
  | cons c rest ih => simp [ih]

theorem scanF_src (fuel : Nat) : ∀ cs : List Char,
    ((scanF fuel cs).map Token.src).flatten = cs := by
  induction fuel with
  | zero =>
    intro cs
    simp only [scanF, List.map_map]
    exact flatten_map_singleton cs
  | succ fuel ih =>
    intro cs
    simp only [scanF]
    split
    · rename_i tok rest h
      simp only [List.map_cons, List.flatten_cons, ih rest]
      exact matchAt_src h
    · rename_i h
      match cs with
      | [] => rfl
      | c :: rest => simp [Token.src, ih rest]

/-! ## Claims -/

/-- Claim C1.  The claim states that for a full 8-group IPv6 candidate the
masked form keeps the first two groups and replaces the remaining six by
`XXXX`, preserving the group count of 8.  The code does not do this:
`groups[:2] + ['XXXX'] * (8 - len(groups))` multiplies by `8 - 8 = 0`
for every matched (hence 8-group) address, so the output is just the
first two groups.  This theorem evaluates the code at a failing input:
the whole tail of the address is dropped rather than masked. -/
theorem claim_C1_ipv6_mask_truncates :
    anonymize_ipv6 (("2a01:db8:0:0:0:0:0:1").data) = ("2a01:db8").data ∧
    anonymize_ip_addresses ("2a01:db8:0:0:0:0:0:1") false (fun _ => none) =
      ("2a01:db8") ∧
    anonymize_ipv6 (("2a01:db8:0:0:0:0:0:1").data) ≠
      ("2a01:db8:XXXX:XXXX:XXXX:XXXX:XXXX:XXXX").data := by
  refine ⟨by decide, by decide, by decide⟩

/-- Claim C2, counterexample.  In CountryCode mode a failed lookup does
not fall back to the masked form: the `except` branch returns
`match.group()`, the raw address.  At the spec's own example address the
emitted replacement is the raw text and differs from the masked form. -/
theorem claim_C2_counterexample :
    anonymize_ip_addresses ("203.0.113.5") true (fun _ => none) =
      ("203.0.113.5") ∧
    replace_ip true (fun _ => none)
        (Token.cand false (("203.0.113.5").data) false) =
      ("203.0.113.5").data ∧
    replace_ip true (fun _ => none)
        (Token.cand false (("203.0.113.5").data) false) ≠
      anonymize_ipv4 (("203.0.113.5").data) := by
  refine ⟨by decide, by decide, by decide⟩

/-- Claim C2, amended.  In CountryCode mode, for every non-excluded
candidate whose lookup fails, the emitted replacement is the original
matched text (brackets included) - the address is left unmasked, not
replaced by the masked form. -/
theorem claim_C2_amended_lookup_failure_returns_original
    (lb rb : Bool) (ip : List Char) (L : String → Option String)
    (hex : String.mk ip ∉ excluded_ips) (hfail : L (String.mk ip) = none) :
    replace_ip true L (Token.cand lb ip rb) = Token.src (Token.cand lb ip rb) := by
  simp [replace_ip, hex, hfail]

/-- Witness for the amended claim C2 at the spec's example address. -/
theorem claim_C2_amended_witness :
    (String.mk (("203.0.113.5").data) ∉ excluded_ips) ∧
    replace_ip true (fun _ => none)
        (Token.cand false (("203.0.113.5").data) false) =
      Token.src (Token.cand false (("203.0.113.5").data) false) :=
  ⟨by decide, claim_C2_amended_lookup_failure_returns_original false false
    (("203.0.113.5").data) (fun _ => none) (by decide) rfl⟩

/-- Claim C3.  For every IPv4-shaped candidate `a.b.c.d` with four groups
of 1-3 decimal digits (no range validation) that is not excluded, the
Mask-mode replacement is exactly `a.b.XXX.XXX`. -/
theorem claim_C3_ipv4_mask (a b c d : List Char) (lb rb : Bool)
    (L : String → Option String)
    (ha : a ≠ [] ∧ a.length ≤ 3 ∧ ∀ x ∈ a, x.isDigit)
    (hb : b ≠ [] ∧ b.length ≤ 3 ∧ ∀ x ∈ b, x.isDigit)
    (hc : c ≠ [] ∧ c.length ≤ 3 ∧ ∀ x ∈ c, x.isDigit)
    (hd : d ≠ [] ∧ d.length ≤ 3 ∧ ∀ x ∈ d, x.isDigit)
    (hex : String.mk (a ++ '.' :: (b ++ '.' :: (c ++ '.' :: d))) ∉ excluded_ips) :
    replace_ip false L
        (Token.cand lb (a ++ '.' :: (b ++ '.' :: (c ++ '.' :: d))) rb) =
      a ++ '.' :: (b ++ ('.' :: 'X' :: 'X' :: 'X' :: '.' :: 'X' :: 'X' :: 'X' :: [])) := by
  have hna : ('.' : Char) ∉ a := fun hm => absurd (ha.2.2 _ hm) (by decide)
  have hnb : ('.' : Char) ∉ b := fun hm => absurd (hb.2.2 _ hm) (by decide)
  have hnc : ('.' : Char) ∉ c := fun hm => absurd (hc.2.2 _ hm) (by decide)
  have hnd : ('.' : Char) ∉ d := fun hm => absurd (hd.2.2 _ hm) (by decide)
  have hdot : ('.' : Char) ∈ a ++ '.' :: (b ++ '.' :: (c ++ '.' :: d)) :=
    List.mem_append_right _ (List.mem_cons_self _ _)
  simp only [replace_ip]
  rw [if_neg hex]
  simp only [Bool.false_eq_true, if_false, if_pos hdot]
  unfold anonymize_ipv4
  rw [splitOnChar_append _ hna, splitOnChar_append _ hnb, splitOnChar_append _ hnc,
      splitOnChar_of_not_mem hnd]
  simp [joinWith]

/-- Witness for claim C3 at the spec's example address `198.51.100.23`. -/
theorem claim_C3_witness :
    ((("198").data ≠ [] ∧ (("198").data).length ≤ 3 ∧ ∀ x ∈ ("198").data, x.isDigit) ∧
      (("51").data ≠ [] ∧ (("51").data).length ≤ 3 ∧ ∀ x ∈ ("51").data, x.isDigit) ∧
      (("100").data ≠ [] ∧ (("100").data).length ≤ 3 ∧ ∀ x ∈ ("100").data, x.isDigit) ∧
      (("23").data ≠ [] ∧ (("23").data).length ≤ 3 ∧ ∀ x ∈ ("23").data, x.isDigit) ∧
      String.mk (("198").data ++ '.' :: ((("51").data) ++ '.' :: ((("100").data) ++ '.' :: ("23").data))) ∉ excluded_ips) ∧
    replace_ip false (fun _ => none)
        (Token.cand false ((("198").data) ++ '.' :: ((("51").data) ++ '.' :: ((("100").data) ++ '.' :: ("23").data))) false) =
      (("198").data) ++ '.' :: ((("51").data) ++ ('.' :: 'X' :: 'X' :: 'X' :: '.' :: 'X' :: 'X' :: 'X' :: [])) :=
  ⟨by decide,
    claim_C3_ipv4_mask (("198").data) (("51").data) (("100").data) (("23").data)
      false false (fun _ => none) (by decide) (by decide) (by decide) (by decide) (by decide)⟩

/-- Claim C4.  A candidate whose bracket-stripped address value is
byte-for-byte equal to an exclusion-list entry is emitted unchanged,
surrounding brackets included, in both Mask and CountryCode mode; the
comparison is literal string equality. -/
theorem claim_C4_excluded_unchanged (cc lb rb : Bool) (ip : List Char)
    (L : String → Option String) (hmem : String.mk ip ∈ excluded_ips) :
    replace_ip cc L (Token.cand lb ip rb) = Token.src (Token.cand lb ip rb) := by
  simp [replace_ip, hmem]

/-- Witness for claim C4: the bracketed excluded literal `[127.0.0.1]`
in CountryCode mode, with a lookup that would succeed. -/
theorem claim_C4_witness :
    (String.mk (("127.0.0.1").data) ∈ excluded_ips) ∧
    replace_ip true (fun _ => some ("US"))
        (Token.cand true (("127.0.0.1").data) true) =
      Token.src (Token.cand true (("127.0.0.1").data) true) :=
  ⟨by decide, claim_C4_excluded_unchanged true true true (("127.0.0.1").data)
    (fun _ => some ("US")) (by decide)⟩

/-- Claim C5, counterexample.  The pattern has no word-boundary anchors,
so a candidate span need not be delimited by word boundaries: on the
input `1234.1.1.1` the scanner matches `234.1.1.1`, whose span starts
right after the digit `1` - a junction of two word characters.  The
`boundaryClean` predicate, which formalizes "every matched candidate
span is delimited by word boundaries", is false on this scan. -/
theorem claim_C5_counterexample :
    boundaryClean (scan (("1234.1.1.1").data)) = false := by decide

/-- Claim C5, amended.  The scanner can match a partial numeric run that
is part of a longer token: on `1234.1.1.1` it matches the suffix
`234.1.1.1` (leaving the initial `1` as untouched text), and Mask mode
consequently rewrites the input to `1234.1.XXX.XXX`. -/
theorem claim_C5_amended :
    scan (("1234.1.1.1").data) =
      [Token.lit '1', Token.cand false (("234.1.1.1").data) false] ∧
    anonymize_ip_addresses ("1234.1.1.1") false (fun _ => none) =
      ("1234.1.XXX.XXX") := by
  refine ⟨by decide, by decide⟩

/-- Claim C6, counterexample.  The already-masked address cited by the
claim does not re-mask: `XXX` groups no longer match the pattern, so
`1.2.XXX.XXX` is a fixed point of the Mask-mode transform and a second
application to a masked IPv4 address yields the same result, not a
different one. -/
theorem claim_C6_counterexample :
    anonymize_ip_addresses ("1.2.XXX.XXX") false (fun _ => none) =
      ("1.2.XXX.XXX") ∧
    anonymize_ip_addresses
        (anonymize_ip_addresses ("1.2.3.4") false (fun _ => none))
        false (fun _ => none) =
      anonymize_ip_addresses ("1.2.3.4") false (fun _ => none) := by
  refine ⟨by decide, by decide⟩

/-- Claim C6, amended.  Mask mode is indeed not idempotent, but through a
different mechanism: the IPv6 masking truncates a matched address to its
first two groups, so the masked outputs of adjacent full-form IPv6
addresses can merge into a new full-form match that a second pass
truncates again.  Four colon-separated full-form addresses become
`1:1:2:2:3:3:4:4` after one pass and `1:1` after two. -/
theorem claim_C6_amended :
    anonymize_ip_addresses
        ("1:1:1:1:1:1:1:1:2:2:2:2:2:2:2:2:3:3:3:3:3:3:3:3:4:4:4:4:4:4:4:4")
        false (fun _ => none) = ("1:1:2:2:3:3:4:4") ∧
    anonymize_ip_addresses
        (anonymize_ip_addresses
          ("1:1:1:1:1:1:1:1:2:2:2:2:2:2:2:2:3:3:3:3:3:3:3:3:4:4:4:4:4:4:4:4")
          false (fun _ => none))
        false (fun _ => none) ≠
      anonymize_ip_addresses
        ("1:1:1:1:1:1:1:1:2:2:2:2:2:2:2:2:3:3:3:3:3:3:3:3:4:4:4:4:4:4:4:4")
        false (fun _ => none) := by
  refine ⟨by decide, by decide⟩

/-- Claim C7.  A lookup failure for one candidate is contained in that
candidate's replacement: the failing candidate is emitted via the
fallback (its original matched text), and every candidate before and
after it in the same input is still transformed according to policy -
the output is the concatenation of the independently computed
replacements of all tokens. -/
theorem claim_C7_error_containment (L : String → Option String) (s : String)
    (pre post : List Token) (lb rb : Bool) (ip : List Char)
    (hscan : scan s.data = pre ++ Token.cand lb ip rb :: post)
    (hex : String.mk ip ∉ excluded_ips)
    (hfail : L (String.mk ip) = none) :
    anonymize_ip_addresses s true L =
      String.mk ((pre.map (replace_ip true L)).flatten ++
        (Token.src (Token.cand lb ip rb) ++
          (post.map (replace_ip true L)).flatten)) := by
  unfold anonymize_ip_addresses
  rw [hscan]
  simp [replace_ip, hex, hfail]

/-- Witness for claim C7: a two-candidate input where the lookup fails on
the first candidate and succeeds on the second; the second is still
replaced by its country-code placeholder. -/
theorem claim_C7_witness :
    (scan (("203.0.113.5 x 5.6.7.8").data) =
      [] ++ Token.cand false (("203.0.113.5").data) false ::
        [Token.lit ' ', Token.lit 'x', Token.lit ' ',
          Token.cand false (("5.6.7.8").data) false]) ∧
    (String.mk (("203.0.113.5").data) ∉ excluded_ips) ∧
    anonymize_ip_addresses ("203.0.113.5 x 5.6.7.8") true
        (fun ip => if ip = ("5.6.7.8") then some ("US") else none) =
      ("203.0.113.5 x [US]") := by
  refine ⟨by decide, by decide, ?_⟩
  have h := claim_C7_error_containment
    (fun ip => if ip = ("5.6.7.8") then some ("US") else none)
    ("203.0.113.5 x 5.6.7.8") []
    [Token.lit ' ', Token.lit 'x', Token.lit ' ',
      Token.cand false (("5.6.7.8").data) false]
    false false (("203.0.113.5").data) (by decide) (by decide) (by decide)
  exact h.trans (by decide)

/-- Claim C8, counterexample.  Both parts of the claim fail on the code.
A failure in the write-back stage is caught by the catch-all `except`
around the second `try` block of `main`, which only logs; `sys.exit(1)`
is reached only on a read failure, so the process exits 0, not
non-zero.  And the original file is not guaranteed untouched: the
temporary file lives in the default temp directory, so `shutil.move`
may take its `copy2` fallback, which truncates and rewrites the input
file in place - a failure mid-copy leaves it torn. -/
theorem claim_C8_counterexample :
    (run_main (ReadOutcome.ok ("line")) ProcessOutcome.tempWriteErr).exitCode = 0 ∧
    (run_main (ReadOutcome.ok ("line")) ProcessOutcome.copyErr).exitCode = 0 ∧
    (run_main (ReadOutcome.ok ("line")) ProcessOutcome.copyErr).fileState =
      FileState.torn := by
  refine ⟨by decide, by decide, by decide⟩

/-- Claim C8, amended.  Every failure in the write-back stage (temp-file
write, the rename or its copy fallback, the cleanup unlink) is caught
and logged as an error, and the process terminates with exit status 0
rather than a non-zero status.  The original input file is untouched
exactly when the failure precedes `shutil.move`; when `os.rename` has
failed and `copy2` fails mid-copy, the original is left partially
overwritten (torn), because the temporary file is not created on the
input file's filesystem and the move is not atomic on that path. -/
theorem claim_C8_amended (s : String) (w : ProcessOutcome)
    (hw : w = ProcessOutcome.tempWriteErr ∨ w = ProcessOutcome.copyErr ∨
      w = ProcessOutcome.unlinkErr) :
    (run_main (ReadOutcome.ok s) w).exitCode = 0 ∧
    (run_main (ReadOutcome.ok s) w).loggedError = true ∧
    ((run_main (ReadOutcome.ok s) w).fileState = FileState.untouched ↔
      w = ProcessOutcome.tempWriteErr) ∧
    ((run_main (ReadOutcome.ok s) w).fileState = FileState.torn ↔
      w = ProcessOutcome.copyErr) := by
  rcases hw with h | h | h <;> subst h <;>
    exact ⟨rfl, rfl, by simp [run_main], by simp [run_main]⟩

/-- Witness for the amended claim C8 at the torn-file run. -/
theorem claim_C8_amended_witness :
    (ProcessOutcome.copyErr = ProcessOutcome.tempWriteErr ∨
      ProcessOutcome.copyErr = ProcessOutcome.copyErr ∨
      ProcessOutcome.copyErr = ProcessOutcome.unlinkErr) ∧
    ((run_main (ReadOutcome.ok ("line two")) ProcessOutcome.copyErr).exitCode = 0 ∧
     (run_main (ReadOutcome.ok ("line two")) ProcessOutcome.copyErr).loggedError = true ∧
     ((run_main (ReadOutcome.ok ("line two")) ProcessOutcome.copyErr).fileState =
        FileState.untouched ↔ ProcessOutcome.copyErr = ProcessOutcome.tempWriteErr) ∧
     ((run_main (ReadOutcome.ok ("line two")) ProcessOutcome.copyErr).fileState =
        FileState.torn ↔ ProcessOutcome.copyErr = ProcessOutcome.copyErr)) :=
  ⟨Or.inr (Or.inl rfl),
    claim_C8_amended ("line two") ProcessOutcome.copyErr (Or.inr (Or.inl rfl))⟩

/-- Claim C9.  Frame property: the scan decomposes the input exactly -
concatenating the source text of all tokens gives back the input - the
output is the concatenation of the per-token replacements in order, and
a literal (unmatched) character is replaced by itself.  Hence every
character outside the matched candidate spans is preserved byte-for-byte. -/
theorem claim_C9_frame (s : String) (cc : Bool) (L : String → Option String) :
    ((scan s.data).map Token.src).flatten = s.data ∧
    anonymize_ip_addresses s cc L =
      String.mk (((scan s.data).map (replace_ip cc L)).flatten) ∧
    ∀ c : Char, replace_ip cc L (Token.lit c) = [c] :=
  ⟨scanF_src s.data.length s.data, rfl, fun _ => rfl⟩

/-- Claim C10.  For a non-excluded candidate that is actually
transformed, the surrounding brackets captured by the match are dropped:
the Mask-mode replacement is the masked address alone, independent of
the captured brackets, and the CountryCode-mode replacement on lookup
success is exactly `[` ++ code ++ `]`. -/
theorem claim_C10_brackets_dropped (lb rb : Bool) (ip : List Char)
    (L : String → Option String) (hex : String.mk ip ∉ excluded_ips) :
    replace_ip false L (Token.cand lb ip rb) =
      (if ('.' : Char) ∈ ip then anonymize_ipv4 ip else anonymize_ipv6 ip) ∧
    (∀ code, L (String.mk ip) = some code →
      replace_ip true L (Token.cand lb ip rb) = '[' :: (code.data ++ [']'])) := by
  constructor
  · simp [replace_ip, hex]
  · intro code hcode
    simp [replace_ip, hex, hcode]

/-- Witness for claim C10 at a bracketed candidate `[10.0.0.1]`. -/
theorem claim_C10_witness :
    (String.mk (("10.0.0.1").data) ∉ excluded_ips) ∧
    replace_ip false (fun _ => some ("DE"))
        (Token.cand true (("10.0.0.1").data) true) =
      (if ('.' : Char) ∈ (("10.0.0.1").data) then anonymize_ipv4 (("10.0.0.1").data)
        else anonymize_ipv6 (("10.0.0.1").data)) ∧
    replace_ip true (fun _ => some ("DE"))
        (Token.cand true (("10.0.0.1").data) true) =
      '[' :: (String.data ("DE") ++ [']']) := by
  have h := claim_C10_brackets_dropped true true (("10.0.0.1").data)
    (fun _ => some ("DE")) (by decide)
  exact ⟨by decide, h.1, h.2 ("DE") rfl⟩

end Anonyme
